import Mathlib

/-!
# qTox privacy settings form

A shallow embedding of `src/widget/form/settings/privacyform.cpp`.

The handlers of `PrivacyForm` are translated to pure functions on an explicit
`State` (the Core, the persisted Settings, the widgets of the form and the list
of calls made on the collaborators).  Answers of modal dialogs and of other
collaborators are inputs of the handlers (`Responses`).

Qt signals: `cbEncryptHistory` and `cbEncryptTox` are connected through
`clicked()`, which a programmatic `setChecked` does not emit, so the handlers
are not re-entered by their own `setChecked` calls.  `nospamLineEdit` emits
`textChanged` when `setText` changes the text; the slot is `onNospamEdit`, which
leaves a text of length 8 alone, so the nested run after the `setText` of a
padded text changes nothing, and a `setText` of the text already shown emits
nothing.

Machine integers: `uint32_t` values are natural numbers reduced modulo `2^32`
where the source computes them; `int` and `long long` values are integers.
-/

namespace PrivacyForm

/-- A `QString`, as the sequence of its UTF-16 code units, each held in a `Char`;
`length` counts them. -/
abbrev QString := List Char

/-- The two password slots, `Core::PasswordType`. -/
inductive PasswordType where
  | ptMain
  | ptHistory
  deriving DecidableEq, Repr

/-- The two confirmation questions asked through `checkContinue`. -/
inductive ContinuePrompt where
  | reencryptOldLogs
  | unencryptLogs
  deriving DecidableEq, Repr

/-- Calls made by the handlers on their collaborators, in program order. -/
inductive Call where
  | passwordDialog (reuseButton : Bool)
  | checkPassword
  | checkContinue (q : ContinuePrompt)
  | reencrypt (newpw : QString)
  | resetInstance
  | setPassword (pw : QString) (slot : PasswordType)
  | useOtherPassword (slot : PasswordType)
  | clearPassword (slot : PasswordType)
  | setNospam (v : Nat)
  | setEncryptLogs (b : Bool)
  | setEncryptTox (b : Bool)
  deriving DecidableEq, Repr

/-- Modelled from the spec: the class `Core` (src/core.h) is not part of the
sources at hand.  It holds two independent password slots and the 4-byte nospam
token. -/
structure Core where
  pwMain : Option QString
  pwHistory : Option QString
  nospam : Nat
  deriving DecidableEq, Repr

/-- Modelled from the spec: the persisted settings (src/misc/settings.h). -/
structure Settings where
  encryptLogs : Bool
  encryptTox : Bool
  deriving DecidableEq, Repr

/-- The widgets of `Ui::PrivacySettings` used by the handlers. -/
structure Ui where
  cbEncryptHistory : Bool
  cbEncryptTox : Bool
  nospamText : QString
  nospamCursor : Nat
  deriving DecidableEq, Repr

/-- The state the handlers act on; `calls` records the calls made so far. -/
structure State where
  core : Core
  settings : Settings
  ui : Ui
  calls : List Call
  deriving DecidableEq, Repr

/-- Answers of the collaborators during one handler run: the result code of
`SetPasswordDialog::exec`, the text of `getPassword`, the result of
`HistoryKeeper::checkPassword` and the answers to `checkContinue`. -/
structure Responses where
  dialogResult : Int
  dialogText : QString
  checkPassword : Bool
  checkContinue : ContinuePrompt → Bool

/-- The password held in a slot. -/
def Core.password (c : Core) : PasswordType → Option QString
  | .ptMain => c.pwMain
  | .ptHistory => c.pwHistory

/-- Modelled from the spec: `Core::isPasswordSet`, is a password set for a slot. -/
def Core.isPasswordSet (c : Core) (slot : PasswordType) : Bool :=
  (c.password slot).isSome

/-- Store a value in a slot. -/
def Core.store (c : Core) (slot : PasswordType) (v : Option QString) : Core :=
  match slot with
  | .ptMain => { c with pwMain := v }
  | .ptHistory => { c with pwHistory := v }

/-- The other slot. -/
def PasswordType.other : PasswordType → PasswordType
  | .ptMain => .ptHistory
  | .ptHistory => .ptMain

/-- Record a call. -/
def State.log (s : State) (c : Call) : State :=
  { s with calls := s.calls ++ [c] }

/-- Modelled from the spec: `Core::setPassword`, set the password of a slot to
the given text. -/
def setPassword (pw : QString) (slot : PasswordType) (s : State) : State :=
  { s with core := s.core.store slot (some pw) }.log (.setPassword pw slot)

/-- Modelled from the spec: `Core::useOtherPassword`, the slot reuses the
password of the other slot. -/
def useOtherPassword (slot : PasswordType) (s : State) : State :=
  { s with core := s.core.store slot (s.core.password slot.other) }.log (.useOtherPassword slot)

/-- Modelled from the spec: `Core::clearPassword`, no password is set for the
slot afterwards. -/
def clearPassword (slot : PasswordType) (s : State) : State :=
  { s with core := s.core.store slot none }.log (.clearPassword slot)

/-- Modelled from the spec: `Settings::setEncryptLogs`. -/
def setEncryptLogs (b : Bool) (s : State) : State :=
  { s with settings := { s.settings with encryptLogs := b } }.log (.setEncryptLogs b)

/-- Modelled from the spec: `Settings::setEncryptTox`. -/
def setEncryptTox (b : Bool) (s : State) : State :=
  { s with settings := { s.settings with encryptTox := b } }.log (.setEncryptTox b)

/-- The call `bodyUI->cbEncryptHistory->setChecked`. -/
def setCheckedEncryptHistory (b : Bool) (s : State) : State :=
  { s with ui := { s.ui with cbEncryptHistory := b } }

/-- The call `bodyUI->cbEncryptTox->setChecked`. -/
def setCheckedEncryptTox (b : Bool) (s : State) : State :=
  { s with ui := { s.ui with cbEncryptTox := b } }

/-- The calls made between state `s` and the later state `t`. -/
def callsSince (s t : State) : List Call :=
  t.calls.drop s.calls.length

/-- The block at label `fail:` of `onEncryptLogsUpdated` (lines 119-122). -/
def failBlock (s : State) : State :=
  let s := clearPassword .ptHistory s
  let s := setEncryptLogs false s
  setCheckedEncryptHistory false s

/-- Lines 99-102 of `onEncryptLogsUpdated`: apply the new password to the
history slot, reusing the datafile password when the text is empty. -/
def applyNewPassword (newpw : QString) (s : State) : State :=
  if newpw.isEmpty then
    useOtherPassword .ptHistory s
  else
    setPassword newpw .ptHistory s

/-- Handler `PrivacyForm::onEncryptLogsUpdated` (lines 62-123).  The three
`return`/`goto` exits of the source are the three kinds of leaves: `failBlock`,
the `reencrypt` call, and `applyNewPassword`. -/
def onEncryptLogsUpdated (env : Responses) (s : State) : State :=
  if s.ui.cbEncryptHistory then
    if !s.core.isPasswordSet .ptHistory then
      -- the dialog gets the extra button only when the datafile password is set
      let s := s.log (.passwordDialog (s.core.isPasswordSet .ptMain))
      let r := env.dialogResult
      if r ≠ 0 then
        let newpw : QString := if r ≠ 2 then env.dialogText else []
        if r ≠ 2 ∧ newpw.isEmpty then
          failBlock s
        else
          let s := setEncryptLogs true s
          let s := setCheckedEncryptHistory true s
          let s := s.log .checkPassword
          if !env.checkPassword then
            let s := s.log (.checkContinue .reencryptOldLogs)
            if env.checkContinue .reencryptOldLogs then
              -- HistoryKeeper::reencrypt: will set core and reset itself
              s.log (.reencrypt newpw)
            else
              applyNewPassword newpw s
          else
            applyNewPassword newpw s
      else
        failBlock s
    else
      failBlock s
  else
    let s := s.log (.checkContinue .unencryptLogs)
    let s :=
      if env.checkContinue .unencryptLogs then
        s
      else
        s.log .resetInstance
    failBlock s

/-- Handler `PrivacyForm::onEncryptToxUpdated` (lines 125-153). -/
def onEncryptToxUpdated (env : Responses) (s : State) : State :=
  let encryptionState := s.ui.cbEncryptTox
  let (encryptionState, s) :=
    if encryptionState then
      if !s.core.isPasswordSet .ptMain then
        let s := s.log (.passwordDialog false)
        if env.dialogResult ≠ 0 then
          let pswd := env.dialogText
          let encryptionState := if pswd.length = 0 then false else encryptionState
          (encryptionState, setPassword pswd .ptMain s)
        else
          (false, clearPassword .ptMain s)
      else
        (encryptionState, s)
    else
      (encryptionState, s)
  let s := setCheckedEncryptTox encryptionState s
  let s := setEncryptTox encryptionState s
  if !s.settings.encryptTox then
    clearPassword .ptMain s
  else
    s

/-! ## The nospam field -/

/-- Qt's `QString::replace(position, n, after)`: the `n` characters from index
`position` on are replaced by `after`; a position past the end leaves the string
as it is and `n` is cut down to the characters that are there. -/
def QString.replace (str : QString) (position n : Nat) (after : QString) : QString :=
  if position > str.length then
    str
  else
    str.take position ++ after ++ str.drop (position + min n (str.length - position))

/-- Qt's `QLineEdit::setText`: the text is replaced and the cursor goes to its end. -/
def setNospamText (txt : QString) (s : State) : State :=
  { s with ui := { s.ui with nospamText := txt, nospamCursor := txt.length } }

/-- Qt's `QLineEdit::setCursorPosition`, kept within the text. -/
def setNospamCursor (pos : Nat) (s : State) : State :=
  { s with ui := { s.ui with nospamCursor := min pos s.ui.nospamText.length } }

/-- The text `onNospamEdit` computes at line 194. -/
def paddedNospam (str : QString) : QString :=
  QString.replace "00000000".toList 0 str.length str

/-- Handler `PrivacyForm::onNospamEdit` (lines 188-198). -/
def onNospamEdit (s : State) : State :=
  let str := s.ui.nospamText
  let curs := s.ui.nospamCursor
  if str.length ≠ 8 then
    let str := paddedNospam str
    let s := setNospamText str s
    setNospamCursor curs s
  else
    s

/-- Value of a hexadecimal digit. -/
def hexDigit (c : Char) : Option Nat :=
  if '0' ≤ c ∧ c ≤ '9' then some (c.toNat - '0'.toNat)
  else if 'a' ≤ c ∧ c ≤ 'f' then some (c.toNat - 'a'.toNat + 10)
  else if 'A' ≤ c ∧ c ≤ 'F' then some (c.toNat - 'A'.toNat + 10)
  else none

/-- Value of a run of hexadecimal digits read after the value `acc`. -/
def hexDigits : Nat → List Char → Option Nat
  | acc, [] => some acc
  | acc, c :: cs =>
    match hexDigit c with
    | some d => hexDigits (acc * 16 + d) cs
    | none => none

/-- White space skipped around a number. -/
def isSpace (c : Char) : Bool :=
  c = ' ' || c = '\t' || c = '\n' || c = '\r' || c.toNat = 11 || c.toNat = 12

/-- Drop white space at both ends. -/
def trimmed (str : QString) : QString :=
  ((str.dropWhile isSpace).reverse.dropWhile isSpace).reverse

/-- Drop an optional `0x` or `0X` in front of the digits. -/
def dropHexMark : List Char → List Char
  | '0' :: 'x' :: cs => cs
  | '0' :: 'X' :: cs => cs
  | cs => cs

/-- The magnitude of a base-16 numeral: at least one digit, digits only. -/
def hexMagnitude (cs : List Char) : Option Nat :=
  match dropHexMark cs with
  | [] => none
  | ds => hexDigits 0 ds

/-- The integer a text denotes in base 16: optional white space around, an
optional sign, an optional `0x`, then hexadecimal digits. -/
def hexValue (str : QString) : Option Int :=
  match trimmed str with
  | '-' :: cs => (hexMagnitude cs).map (fun m => - (m : Int))
  | '+' :: cs => (hexMagnitude cs).map (fun m => (m : Int))
  | cs => (hexMagnitude cs).map (fun m => (m : Int))

/-- Qt's `QString::toLongLong(&ok, 16)`: the value when the text is a base-16
numeral that fits a signed 64-bit integer; `none` stands for `ok == false`. -/
def toLongLong16 (str : QString) : Option Int :=
  match hexValue str with
  | some n => if -(2 : Int) ^ 63 ≤ n ∧ n < (2 : Int) ^ 63 then some n else none
  | none => none

/-- Conversion of an integer to `uint32_t`. -/
def toUInt32 (n : Int) : Nat :=
  (n % (2 : Int) ^ 32).toNat

/-- Modelled from the spec: `Core::setNospam`, store the 4-byte token. -/
def coreSetNospam (v : Nat) (s : State) : State :=
  { s with core := { s.core with nospam := v } }.log (.setNospam v)

/-- Handler `PrivacyForm::setNospam` (lines 155-163): the `long long` result of
the parse is narrowed to `uint32_t` and pushed when `ok`. -/
def setNospam (s : State) : State :=
  let newNospam := s.ui.nospamText
  match toLongLong16 newNospam with
  | some v =>
    let nospam := toUInt32 v
    coreSetNospam nospam s
  | none => s

/-- The claim's reading of the parse: the text denotes, in base 16, a value in
the range of an unsigned 32-bit integer. -/
def parsesAsUInt32 (str : QString) : Option Nat :=
  match hexValue str with
  | some n => if 0 ≤ n ∧ n < (2 : Int) ^ 32 then some n.toNat else none
  | none => none

/-- One round of the loop at lines 181-182, on `uint32_t`:
`newNospam = (newNospam<<8) + (qrand() % 256)`. -/
def nospamStep (newNospam : Nat) (r : Int) : Nat :=
  toUInt32 (((newNospam * 2 ^ 8 % 2 ^ 32 : Nat) : Int) + Int.tmod r 256)

/-- The same round without the reduction modulo `2^32`. -/
def nospamStepWide (newNospam : Nat) (r : Int) : Int :=
  ((newNospam * 2 ^ 8 : Nat) : Int) + Int.tmod r 256

/-- The token built by the loop from the four outputs of `qrand`. -/
def randomNospam (r0 r1 r2 r3 : Int) : Nat :=
  [r0, r1, r2, r3].foldl nospamStep 0

/-- Handler `PrivacyForm::generateRandomNospam` (lines 175-186); `r0 .. r3` are
the four successive results of `qrand` after the `qsrand` of line 178, and
`noSpam` is the rendering of the token in `Core::getSelfId`. -/
def generateRandomNospam (noSpam : Nat → QString) (r0 r1 r2 r3 : Int) (s : State) : State :=
  let newNospam := randomNospam r0 r1 r2 r3
  let s := coreSetNospam newNospam s
  setNospamText (noSpam s.core.nospam) s

/-! ## Concrete inputs -/

/-- A state with the given passwords, flags and check boxes. -/
def sampleState (pwMain pwHistory : Option QString) (encryptLogs encryptTox : Bool)
    (cbEncryptHistory cbEncryptTox : Bool) (nospamText : QString) : State :=
  { core := { pwMain := pwMain, pwHistory := pwHistory, nospam := 5 }
    settings := { encryptLogs := encryptLogs, encryptTox := encryptTox }
    ui := { cbEncryptHistory := cbEncryptHistory, cbEncryptTox := cbEncryptTox,
            nospamText := nospamText, nospamCursor := 0 }
    calls := [] }

/-- Collaborators that answer with the given values. -/
def sampleResponses (dialogResult : Int) (dialogText : QString) (checkPassword : Bool)
    (answer : Bool) : Responses :=
  { dialogResult := dialogResult, dialogText := dialogText, checkPassword := checkPassword,
    checkContinue := fun _ => answer }

/-! ## Helper lemmas -/

theorem zeros_drop (n : Nat) : "00000000".toList.drop n = List.replicate (8 - n) '0' := by
  have h : "00000000".toList = List.replicate 8 '0' := by decide
  rw [h, List.drop_replicate]

theorem paddedNospam_short (str : QString) (h : str.length < 8) :
    paddedNospam str = str ++ List.replicate (8 - str.length) '0' := by
  have hlen : "00000000".toList.length = 8 := by decide
  have hmin : min str.length (8 - 0) = str.length := by omega
  simp only [paddedNospam, QString.replace, hlen, Nat.not_lt_zero, if_false, List.take_zero,
    List.nil_append, Nat.zero_add, hmin]
  rw [zeros_drop]

theorem toUInt32_of_lt (n : Int) (h0 : 0 ≤ n) (h : n < (2 : Int) ^ 32) :
    toUInt32 n = n.toNat := by
  unfold toUInt32
  omega

theorem nospamStep_eq (acc : Nat) (r : Int) (hr : 0 ≤ r) (hacc : acc < 2 ^ 24) :
    ((nospamStep acc r : Nat) : Int) = (acc : Int) * 256 + r % 256 ∧
      nospamStepWide acc r = (acc : Int) * 256 + r % 256 := by
  have ht : Int.tmod r 256 = r % 256 := Int.tmod_eq_emod hr (by norm_num)
  unfold nospamStep nospamStepWide toUInt32
  rw [ht]
  constructor
  · have h1 : (0 : Int) ≤ r % 256 := Int.emod_nonneg _ (by norm_num)
    have h2 : r % 256 < 256 := Int.emod_lt_of_pos _ (by norm_num)
    push_cast
    omega
  · push_cast
    omega

theorem toLongLong16_of_parsesAsUInt32 (str : QString) (n : Nat)
    (h : parsesAsUInt32 str = some n) :
    toLongLong16 str = some (n : Int) ∧ toUInt32 (n : Int) = n := by
  unfold parsesAsUInt32 at h
  unfold toLongLong16
  cases hv : hexValue str with
  | none => simp [hv] at h
  | some v =>
    simp only [hv] at h ⊢
    by_cases hr : 0 ≤ v ∧ v < (2 : Int) ^ 32
    · rw [if_pos hr] at h
      have hn : v.toNat = n := by simpa using h
      have hvn : v = (n : Int) := by omega
      have h64 : -(2 : Int) ^ 63 ≤ v ∧ v < (2 : Int) ^ 63 := by omega
      rw [if_pos h64]
      refine ⟨by rw [hvn], ?_⟩
      rw [toUInt32_of_lt _ (by omega) (by omega)]
      simp
    · rw [if_neg hr] at h
      simp at h

/-! ## The claims -/

/-- C1 as stated fails: with the box checked, no history password, the dialog
confirmed with text `abc`, `checkPassword` false and the re-encryption accepted,
the handler returns with the flag true and no history password set. -/
theorem onEncryptLogsUpdated_flag_without_password :
    (onEncryptLogsUpdated (sampleResponses 1 "abc".toList false true)
        (sampleState none none false false true false [])).settings.encryptLogs = true ∧
    (onEncryptLogsUpdated (sampleResponses 1 "abc".toList false true)
        (sampleState none none false false true false [])).core.isPasswordSet .ptHistory
      = false := by
  decide

/-- C1, amended: when the reuse result 2 is only returned while a datafile
password is set, then at return of `onEncryptLogsUpdated` the persisted flag
`encryptLogs` is true only if a history password is set or the new password was
handed to `HistoryKeeper::reencrypt`. -/
theorem onEncryptLogsUpdated_flag_password_or_reencrypt (env : Responses) (s : State)
    (hreuse : env.dialogResult = 2 → s.core.isPasswordSet .ptMain = true)
    (hflag : (onEncryptLogsUpdated env s).settings.encryptLogs = true) :
    (onEncryptLogsUpdated env s).core.isPasswordSet .ptHistory = true ∨
      Call.reencrypt (if env.dialogResult ≠ 2 then env.dialogText else [])
        ∈ callsSince s (onEncryptLogsUpdated env s) := by
  obtain ⟨⟨pm, ph, ns⟩, ⟨el, et⟩, ⟨ch, ct, nt, nc⟩, calls⟩ := s
  obtain ⟨r, txt, cp, cc⟩ := env
  by_cases hr : r = 0 <;> by_cases h2 : r = 2 <;> by_cases he : txt = [] <;>
    cases ch <;> cases ph <;> cases cp <;> cases ha : cc .reencryptOldLogs <;>
    simp_all [onEncryptLogsUpdated, failBlock, applyNewPassword, setPassword, useOtherPassword,
      clearPassword, setEncryptLogs, setCheckedEncryptHistory, State.log, callsSince,
      Core.isPasswordSet, Core.store, Core.password, PasswordType.other]

/-- Witness of C1 (amended): the re-encryption path. -/
theorem onEncryptLogsUpdated_flag_password_or_reencrypt_witness :
    (onEncryptLogsUpdated (sampleResponses 1 "abc".toList false true)
        (sampleState none none false false true false [])).core.isPasswordSet .ptHistory = true ∨
      Call.reencrypt (if (sampleResponses 1 "abc".toList false true).dialogResult ≠ 2
          then (sampleResponses 1 "abc".toList false true).dialogText else [])
        ∈ callsSince (sampleState none none false false true false [])
            (onEncryptLogsUpdated (sampleResponses 1 "abc".toList false true)
              (sampleState none none false false true false [])) :=
  onEncryptLogsUpdated_flag_password_or_reencrypt (sampleResponses 1 "abc".toList false true)
    (sampleState none none false false true false []) (by decide) (by decide)

/-- The precondition of the amended C1 is needed in this model: were the dialog
to return 2 while no datafile password is set, `useOtherPassword` would have no
password to reuse. -/
theorem onEncryptLogsUpdated_reuse_without_datafile_password :
    (onEncryptLogsUpdated (sampleResponses 2 [] true false)
        (sampleState none none false false true false [])).settings.encryptLogs = true ∧
    (onEncryptLogsUpdated (sampleResponses 2 [] true false)
        (sampleState none none false false true false [])).core.isPasswordSet .ptHistory
      = false := by
  decide

/-- C2: after `onEncryptToxUpdated` the persisted flag `encryptTox` is true if
and only if a password is set for the datafile slot `ptMain`, and the check box
equals the persisted flag. -/
theorem onEncryptToxUpdated_flag_iff_password (env : Responses) (s : State) :
    ((onEncryptToxUpdated env s).settings.encryptTox = true ↔
        (onEncryptToxUpdated env s).core.isPasswordSet .ptMain = true) ∧
      (onEncryptToxUpdated env s).ui.cbEncryptTox
        = (onEncryptToxUpdated env s).settings.encryptTox := by
  obtain ⟨⟨pm, ph, ns⟩, ⟨el, et⟩, ⟨ch, ct, nt, nc⟩, calls⟩ := s
  obtain ⟨r, txt, cp, cc⟩ := env
  by_cases hr : r = 0 <;> by_cases he : txt = [] <;> cases ct <;> cases pm <;>
    simp_all [onEncryptToxUpdated, setPassword, clearPassword, setEncryptTox,
      setCheckedEncryptTox, State.log, Core.isPasswordSet, Core.store, Core.password]

/-- C5: box checked, no history password, dialog confirmed (result neither 0 nor
2) with a non-empty text `p`, `checkPassword` true: the flag is true, the box is
checked, the history password is `p`, and the fail block did not run (no
`clearPassword` call). -/
theorem onEncryptLogsUpdated_success (env : Responses) (s : State) (p : QString)
    (hp : p ≠ []) (hbox : s.ui.cbEncryptHistory = true)
    (hnone : s.core.isPasswordSet .ptHistory = false)
    (hr0 : env.dialogResult ≠ 0) (hr2 : env.dialogResult ≠ 2) (htxt : env.dialogText = p)
    (hcheck : env.checkPassword = true) :
    (onEncryptLogsUpdated env s).settings.encryptLogs = true ∧
      (onEncryptLogsUpdated env s).ui.cbEncryptHistory = true ∧
      (onEncryptLogsUpdated env s).core.password .ptHistory = some p ∧
      Call.clearPassword .ptHistory ∉ callsSince s (onEncryptLogsUpdated env s) ∧
      Call.setEncryptLogs false ∉ callsSince s (onEncryptLogsUpdated env s) := by
  obtain ⟨⟨pm, ph, ns⟩, ⟨el, et⟩, ⟨ch, ct, nt, nc⟩, calls⟩ := s
  obtain ⟨r, txt, cp, cc⟩ := env
  cases ph <;>
    simp_all [onEncryptLogsUpdated, failBlock, applyNewPassword, setPassword, useOtherPassword,
      clearPassword, setEncryptLogs, setCheckedEncryptHistory, State.log, callsSince,
      Core.isPasswordSet, Core.store, Core.password, PasswordType.other]

/-- Witness of C5. -/
theorem onEncryptLogsUpdated_success_witness :
    (onEncryptLogsUpdated (sampleResponses 1 "pw".toList true false)
        (sampleState none none false false true false [])).settings.encryptLogs = true ∧
      (onEncryptLogsUpdated (sampleResponses 1 "pw".toList true false)
        (sampleState none none false false true false [])).ui.cbEncryptHistory = true ∧
      (onEncryptLogsUpdated (sampleResponses 1 "pw".toList true false)
        (sampleState none none false false true false [])).core.password .ptHistory
          = some "pw".toList ∧
      Call.clearPassword .ptHistory ∉ callsSince (sampleState none none false false true false [])
        (onEncryptLogsUpdated (sampleResponses 1 "pw".toList true false)
          (sampleState none none false false true false [])) ∧
      Call.setEncryptLogs false ∉ callsSince (sampleState none none false false true false [])
        (onEncryptLogsUpdated (sampleResponses 1 "pw".toList true false)
          (sampleState none none false false true false [])) :=
  onEncryptLogsUpdated_success (sampleResponses 1 "pw".toList true false)
    (sampleState none none false false true false []) "pw".toList
    (by decide) (by decide) (by decide) (by decide) (by decide) rfl rfl

/-- C6: box checked, no history password, dialog cancelled (result 0) or
confirmed (result not 2) with an empty text: the flag is false, the box is
unchecked, the history password is cleared, and none of `reencrypt`,
`setPassword`, `useOtherPassword` was called. -/
theorem onEncryptLogsUpdated_cancel_or_empty (env : Responses) (s : State)
    (hbox : s.ui.cbEncryptHistory = true)
    (hnone : s.core.isPasswordSet .ptHistory = false)
    (hdlg : env.dialogResult = 0 ∨ (env.dialogResult ≠ 2 ∧ env.dialogText = [])) :
    (onEncryptLogsUpdated env s).settings.encryptLogs = false ∧
      (onEncryptLogsUpdated env s).ui.cbEncryptHistory = false ∧
      (onEncryptLogsUpdated env s).core.password .ptHistory = none ∧
      (∀ pw, Call.reencrypt pw ∉ callsSince s (onEncryptLogsUpdated env s)) ∧
      (∀ pw slot, Call.setPassword pw slot ∉ callsSince s (onEncryptLogsUpdated env s)) ∧
      (∀ slot, Call.useOtherPassword slot ∉ callsSince s (onEncryptLogsUpdated env s)) := by
  obtain ⟨⟨pm, ph, ns⟩, ⟨el, et⟩, ⟨ch, ct, nt, nc⟩, calls⟩ := s
  obtain ⟨r, txt, cp, cc⟩ := env
  by_cases hr : r = 0 <;> by_cases h2 : r = 2 <;> cases ph <;>
    simp_all [onEncryptLogsUpdated, failBlock, applyNewPassword, setPassword, useOtherPassword,
      clearPassword, setEncryptLogs, setCheckedEncryptHistory, State.log, callsSince,
      Core.isPasswordSet, Core.store, Core.password, PasswordType.other]

/-- Witness of C6: the dialog is confirmed with an empty text while the flag was
true and a datafile password is set. -/
theorem onEncryptLogsUpdated_cancel_or_empty_witness :
    (onEncryptLogsUpdated (sampleResponses 1 [] true true)
        (sampleState (some "m".toList) none true true true true [])).settings.encryptLogs
        = false ∧
      (onEncryptLogsUpdated (sampleResponses 1 [] true true)
        (sampleState (some "m".toList) none true true true true [])).ui.cbEncryptHistory
        = false ∧
      (onEncryptLogsUpdated (sampleResponses 1 [] true true)
        (sampleState (some "m".toList) none true true true true [])).core.password .ptHistory
        = none ∧
      (∀ pw, Call.reencrypt pw ∉ callsSince (sampleState (some "m".toList) none true true true true [])
        (onEncryptLogsUpdated (sampleResponses 1 [] true true)
          (sampleState (some "m".toList) none true true true true []))) ∧
      (∀ pw slot, Call.setPassword pw slot ∉
        callsSince (sampleState (some "m".toList) none true true true true [])
          (onEncryptLogsUpdated (sampleResponses 1 [] true true)
            (sampleState (some "m".toList) none true true true true []))) ∧
      (∀ slot, Call.useOtherPassword slot ∉
        callsSince (sampleState (some "m".toList) none true true true true [])
          (onEncryptLogsUpdated (sampleResponses 1 [] true true)
            (sampleState (some "m".toList) none true true true true []))) :=
  onEncryptLogsUpdated_cancel_or_empty (sampleResponses 1 [] true true)
    (sampleState (some "m".toList) none true true true true [])
    (by decide) (by decide) (Or.inr ⟨by decide, rfl⟩)

/-- C7: identity box checked, no datafile password, dialog cancelled or
confirmed with an empty text: the flag `encryptTox` is false, the box is
unchecked and no datafile password is set (the slot is cleared, it does not hold
the empty string). -/
theorem onEncryptToxUpdated_cancel_or_empty (env : Responses) (s : State)
    (hbox : s.ui.cbEncryptTox = true)
    (hnone : s.core.isPasswordSet .ptMain = false)
    (hdlg : env.dialogResult = 0 ∨ env.dialogText = []) :
    (onEncryptToxUpdated env s).settings.encryptTox = false ∧
      (onEncryptToxUpdated env s).ui.cbEncryptTox = false ∧
      (onEncryptToxUpdated env s).core.password .ptMain = none ∧
      (onEncryptToxUpdated env s).core.isPasswordSet .ptMain = false := by
  obtain ⟨⟨pm, ph, ns⟩, ⟨el, et⟩, ⟨ch, ct, nt, nc⟩, calls⟩ := s
  obtain ⟨r, txt, cp, cc⟩ := env
  by_cases hr : r = 0 <;> by_cases he : txt = [] <;> cases pm <;>
    simp_all [onEncryptToxUpdated, setPassword, clearPassword, setEncryptTox,
      setCheckedEncryptTox, State.log, Core.isPasswordSet, Core.store, Core.password]

/-- Witness of C7: the dialog is confirmed with an empty text. -/
theorem onEncryptToxUpdated_cancel_or_empty_witness :
    (onEncryptToxUpdated (sampleResponses 1 [] true true)
        (sampleState none none false true false true [])).settings.encryptTox = false ∧
      (onEncryptToxUpdated (sampleResponses 1 [] true true)
        (sampleState none none false true false true [])).ui.cbEncryptTox = false ∧
      (onEncryptToxUpdated (sampleResponses 1 [] true true)
        (sampleState none none false true false true [])).core.password .ptMain = none ∧
      (onEncryptToxUpdated (sampleResponses 1 [] true true)
        (sampleState none none false true false true [])).core.isPasswordSet .ptMain = false :=
  onEncryptToxUpdated_cancel_or_empty (sampleResponses 1 [] true true)
    (sampleState none none false true false true []) (by decide) (by decide) (Or.inr rfl)

/-- C9: box unchecked on entry: for both answers to the un-encrypt question the
history password is cleared, the flag is false and the box is unchecked;
`HistoryKeeper::resetInstance` is called if and only if the answer is no; the
question is asked and no password dialog is shown. -/
theorem onEncryptLogsUpdated_unchecked (env : Responses) (s : State)
    (hbox : s.ui.cbEncryptHistory = false) :
    (onEncryptLogsUpdated env s).core.password .ptHistory = none ∧
      (onEncryptLogsUpdated env s).settings.encryptLogs = false ∧
      (onEncryptLogsUpdated env s).ui.cbEncryptHistory = false ∧
      (Call.resetInstance ∈ callsSince s (onEncryptLogsUpdated env s) ↔
        env.checkContinue .unencryptLogs = false) ∧
      Call.checkContinue .unencryptLogs ∈ callsSince s (onEncryptLogsUpdated env s) ∧
      (∀ b, Call.passwordDialog b ∉ callsSince s (onEncryptLogsUpdated env s)) := by
  obtain ⟨⟨pm, ph, ns⟩, ⟨el, et⟩, ⟨ch, ct, nt, nc⟩, calls⟩ := s
  obtain ⟨r, txt, cp, cc⟩ := env
  cases ha : cc .unencryptLogs <;>
    simp_all [onEncryptLogsUpdated, failBlock, clearPassword, setEncryptLogs,
      setCheckedEncryptHistory, State.log, callsSince, Core.store, Core.password]

/-- Witness of C9: the user answers no while a history password is set and the
flag is true. -/
theorem onEncryptLogsUpdated_unchecked_witness :
    (onEncryptLogsUpdated (sampleResponses 1 [] true false)
        (sampleState none (some "h".toList) true false false false [])).core.password .ptHistory
        = none ∧
      (onEncryptLogsUpdated (sampleResponses 1 [] true false)
        (sampleState none (some "h".toList) true false false false [])).settings.encryptLogs
        = false ∧
      (onEncryptLogsUpdated (sampleResponses 1 [] true false)
        (sampleState none (some "h".toList) true false false false [])).ui.cbEncryptHistory
        = false ∧
      (Call.resetInstance ∈ callsSince (sampleState none (some "h".toList) true false false false [])
          (onEncryptLogsUpdated (sampleResponses 1 [] true false)
            (sampleState none (some "h".toList) true false false false [])) ↔
        (sampleResponses 1 [] true false).checkContinue .unencryptLogs = false) ∧
      Call.checkContinue .unencryptLogs ∈
        callsSince (sampleState none (some "h".toList) true false false false [])
          (onEncryptLogsUpdated (sampleResponses 1 [] true false)
            (sampleState none (some "h".toList) true false false false [])) ∧
      (∀ b, Call.passwordDialog b ∉
        callsSince (sampleState none (some "h".toList) true false false false [])
          (onEncryptLogsUpdated (sampleResponses 1 [] true false)
            (sampleState none (some "h".toList) true false false false []))) :=
  onEncryptLogsUpdated_unchecked (sampleResponses 1 [] true false)
    (sampleState none (some "h".toList) true false false false []) (by decide)

/-- C10: with the box checked and a history password already set the handler
shows no prompt (the calls made are exactly those of the fail block) and ends
with the history password cleared, the flag false and the box unchecked; and for
every input, the flag is true at return only if the box was checked on entry, no
history password was set on entry and the password dialog succeeded (result not
0, and result 2 or a non-empty text). -/
theorem onEncryptLogsUpdated_enabled_only_after_prompt (env : Responses) (s : State) :
    (s.ui.cbEncryptHistory = true → s.core.isPasswordSet .ptHistory = true →
        callsSince s (onEncryptLogsUpdated env s)
            = [Call.clearPassword .ptHistory, Call.setEncryptLogs false] ∧
          (onEncryptLogsUpdated env s).core.password .ptHistory = none ∧
          (onEncryptLogsUpdated env s).settings.encryptLogs = false ∧
          (onEncryptLogsUpdated env s).ui.cbEncryptHistory = false) ∧
      ((onEncryptLogsUpdated env s).settings.encryptLogs = true →
        s.ui.cbEncryptHistory = true ∧ s.core.isPasswordSet .ptHistory = false ∧
          env.dialogResult ≠ 0 ∧ (env.dialogResult = 2 ∨ env.dialogText ≠ [])) := by
  obtain ⟨⟨pm, ph, ns⟩, ⟨el, et⟩, ⟨ch, ct, nt, nc⟩, calls⟩ := s
  obtain ⟨r, txt, cp, cc⟩ := env
  by_cases hr : r = 0 <;> by_cases h2 : r = 2 <;> by_cases he : txt = [] <;>
    cases ch <;> cases ph <;> cases cp <;> cases ha : cc .reencryptOldLogs <;>
    simp_all [onEncryptLogsUpdated, failBlock, applyNewPassword, setPassword, useOtherPassword,
      clearPassword, setEncryptLogs, setCheckedEncryptHistory, State.log, callsSince,
      Core.isPasswordSet, Core.store, Core.password, PasswordType.other]

/-- Witness of C10: box checked and a history password set on entry; and a run
that ends with the flag true. -/
theorem onEncryptLogsUpdated_enabled_only_after_prompt_witness :
    (callsSince (sampleState none (some "h".toList) true false true false [])
        (onEncryptLogsUpdated (sampleResponses 1 "x".toList true true)
          (sampleState none (some "h".toList) true false true false []))
        = [Call.clearPassword .ptHistory, Call.setEncryptLogs false] ∧
      (onEncryptLogsUpdated (sampleResponses 1 "x".toList true true)
        (sampleState none (some "h".toList) true false true false [])).core.password .ptHistory
        = none ∧
      (onEncryptLogsUpdated (sampleResponses 1 "x".toList true true)
        (sampleState none (some "h".toList) true false true false [])).settings.encryptLogs
        = false ∧
      (onEncryptLogsUpdated (sampleResponses 1 "x".toList true true)
        (sampleState none (some "h".toList) true false true false [])).ui.cbEncryptHistory
        = false) ∧
    ((sampleState none none false false true false []).ui.cbEncryptHistory = true ∧
      (sampleState none none false false true false []).core.isPasswordSet .ptHistory = false ∧
      (sampleResponses 1 "x".toList true true).dialogResult ≠ 0 ∧
      ((sampleResponses 1 "x".toList true true).dialogResult = 2 ∨
        (sampleResponses 1 "x".toList true true).dialogText ≠ [])) :=
  ⟨(onEncryptLogsUpdated_enabled_only_after_prompt (sampleResponses 1 "x".toList true true)
      (sampleState none (some "h".toList) true false true false [])).1 (by decide) (by decide),
    (onEncryptLogsUpdated_enabled_only_after_prompt (sampleResponses 1 "x".toList true true)
      (sampleState none none false false true false [])).2 (by decide)⟩

/-- C3 as stated fails: the text `abc` is written back as `abc00000`, which does
not begin with the five zeros needed to reach length 8, and the nine characters
`123456789` are written back unchanged, with length 9. -/
theorem onNospamEdit_not_left_padded :
    (onNospamEdit (sampleState none none false false false false "abc".toList)).ui.nospamText
        = "abc00000".toList ∧
      ¬ (List.replicate 5 '0' <+:
        (onNospamEdit (sampleState none none false false false false "abc".toList)).ui.nospamText) ∧
      (onNospamEdit
        (sampleState none none false false false false "123456789".toList)).ui.nospamText.length
        = 9 := by
  decide

/-- C3, amended: for every text shorter than 8 characters the text written
back by `onNospamEdit` has length exactly 8 and is the original text followed
by as many `0` characters as are needed to reach length 8 (padding on the
right), so the original characters come first and keep their order. -/
theorem onNospamEdit_pads_right (s : State) (h : s.ui.nospamText.length < 8) :
    (onNospamEdit s).ui.nospamText
        = s.ui.nospamText ++ List.replicate (8 - s.ui.nospamText.length) '0' ∧
      (onNospamEdit s).ui.nospamText.length = 8 ∧
      s.ui.nospamText <+: (onNospamEdit s).ui.nospamText := by
  have hne : s.ui.nospamText.length ≠ 8 := by omega
  have hval : (onNospamEdit s).ui.nospamText
      = s.ui.nospamText ++ List.replicate (8 - s.ui.nospamText.length) '0' := by
    simp only [onNospamEdit, hne, ne_eq, not_false_eq_true, if_true, setNospamCursor,
      setNospamText]
    exact paddedNospam_short _ h
  refine ⟨hval, ?_, ?_⟩
  · rw [hval, List.length_append, List.length_replicate]
    omega
  · rw [hval]
    exact List.prefix_append _ _

/-- Witness of C3 (amended): the text `abc`. -/
theorem onNospamEdit_pads_right_witness :
    (onNospamEdit (sampleState none none false false false false "abc".toList)).ui.nospamText
        = (sampleState none none false false false false "abc".toList).ui.nospamText ++
          List.replicate
            (8 - (sampleState none none false false false false "abc".toList).ui.nospamText.length)
            '0' ∧
      (onNospamEdit
        (sampleState none none false false false false "abc".toList)).ui.nospamText.length = 8 ∧
      (sampleState none none false false false false "abc".toList).ui.nospamText <+:
        (onNospamEdit (sampleState none none false false false false "abc".toList)).ui.nospamText :=
  onNospamEdit_pads_right (sampleState none none false false false false "abc".toList)
    (by decide)

/-- C4 as stated fails: the text `100000000` denotes `2^32`, which is no
unsigned 32-bit value, yet `setNospam` pushes 0 to the Core and changes its
nospam; the text `-1` makes it push `2^32 - 1`. -/
theorem setNospam_pushes_out_of_range :
    parsesAsUInt32 "100000000".toList = none ∧
      callsSince (sampleState none none false false false false "100000000".toList)
          (setNospam (sampleState none none false false false false "100000000".toList))
        = [Call.setNospam 0] ∧
      (sampleState none none false false false false "100000000".toList).core.nospam = 5 ∧
      (setNospam (sampleState none none false false false false "100000000".toList)).core.nospam
        = 0 ∧
      parsesAsUInt32 "-1".toList = none ∧
      callsSince (sampleState none none false false false false "-1".toList)
          (setNospam (sampleState none none false false false false "-1".toList))
        = [Call.setNospam 4294967295] := by
  decide

/-- C4, amended: `setNospam` pushes a value to `Core::setNospam` if and only if
the text parses as a base-16 signed 64-bit integer, and the value pushed is the
parsed value reduced modulo `2^32`; when the text denotes a value in `[0, 2^32)`
exactly that value is pushed; when the parse fails nothing changes. -/
theorem setNospam_pushes_iff_parses (s : State) :
    (∀ v, Call.setNospam v ∈ callsSince s (setNospam s) ↔
        ∃ n, toLongLong16 s.ui.nospamText = some n ∧ v = toUInt32 n) ∧
      (∀ n, parsesAsUInt32 s.ui.nospamText = some n →
        callsSince s (setNospam s) = [Call.setNospam n] ∧ (setNospam s).core.nospam = n) ∧
      (toLongLong16 s.ui.nospamText = none → setNospam s = s) := by
  refine ⟨?_, ?_, ?_⟩
  · intro v
    cases hp : toLongLong16 s.ui.nospamText with
    | none => simp [setNospam, hp, callsSince]
    | some n =>
      simp [setNospam, hp, coreSetNospam, State.log, callsSince]
  · intro n hn
    obtain ⟨hp, hu⟩ := toLongLong16_of_parsesAsUInt32 _ _ hn
    simp [setNospam, hp, hu, coreSetNospam, State.log, callsSince]
  · intro hp
    simp [setNospam, hp]

/-- Witness of C4 (amended): the text `ff` makes `setNospam` push 255. -/
theorem setNospam_pushes_iff_parses_witness :
    callsSince (sampleState none none false false false false "ff".toList)
        (setNospam (sampleState none none false false false false "ff".toList))
        = [Call.setNospam 255] ∧
      (setNospam (sampleState none none false false false false "ff".toList)).core.nospam = 255 :=
  (setNospam_pushes_iff_parses (sampleState none none false false false false "ff".toList)).2.1
    255 (by decide)

/-- C8: for non-negative outputs `r0 .. r3` of `qrand`, the token pushed by
`generateRandomNospam` is `(r0 mod 256)*2^24 + (r1 mod 256)*2^16 +
(r2 mod 256)*2^8 + (r3 mod 256)`; each byte drawn lies in `0..255`; and in every
round of the loop the exact value of `(newNospam << 8) + byte` equals the 32-bit
result, so the accumulation never wraps modulo `2^32`. -/
theorem generateRandomNospam_big_endian (noSpam : Nat → QString) (r0 r1 r2 r3 : Int)
    (s : State) (h0 : 0 ≤ r0) (h1 : 0 ≤ r1) (h2 : 0 ≤ r2) (h3 : 0 ≤ r3) :
    callsSince s (generateRandomNospam noSpam r0 r1 r2 r3 s)
        = [Call.setNospam (randomNospam r0 r1 r2 r3)] ∧
      (generateRandomNospam noSpam r0 r1 r2 r3 s).core.nospam = randomNospam r0 r1 r2 r3 ∧
      ((randomNospam r0 r1 r2 r3 : Nat) : Int)
        = (r0 % 256) * 2 ^ 24 + (r1 % 256) * 2 ^ 16 + (r2 % 256) * 2 ^ 8 + r3 % 256 ∧
      (∀ r ∈ [r0, r1, r2, r3], 0 ≤ Int.tmod r 256 ∧ Int.tmod r 256 ≤ 255) ∧
      nospamStepWide 0 r0 = nospamStep 0 r0 ∧
      nospamStepWide (nospamStep 0 r0) r1 = nospamStep (nospamStep 0 r0) r1 ∧
      nospamStepWide (nospamStep (nospamStep 0 r0) r1) r2
        = nospamStep (nospamStep (nospamStep 0 r0) r1) r2 ∧
      nospamStepWide (nospamStep (nospamStep (nospamStep 0 r0) r1) r2) r3
        = nospamStep (nospamStep (nospamStep (nospamStep 0 r0) r1) r2) r3 := by
  have b0 : (0 : Int) ≤ r0 % 256 ∧ r0 % 256 < 256 :=
    ⟨Int.emod_nonneg _ (by norm_num), Int.emod_lt_of_pos _ (by norm_num)⟩
  have b1 : (0 : Int) ≤ r1 % 256 ∧ r1 % 256 < 256 :=
    ⟨Int.emod_nonneg _ (by norm_num), Int.emod_lt_of_pos _ (by norm_num)⟩
  have b2 : (0 : Int) ≤ r2 % 256 ∧ r2 % 256 < 256 :=
    ⟨Int.emod_nonneg _ (by norm_num), Int.emod_lt_of_pos _ (by norm_num)⟩
  have b3 : (0 : Int) ≤ r3 % 256 ∧ r3 % 256 < 256 :=
    ⟨Int.emod_nonneg _ (by norm_num), Int.emod_lt_of_pos _ (by norm_num)⟩
  obtain ⟨e1, w1⟩ := nospamStep_eq 0 r0 h0 (by norm_num)
  have a1 : nospamStep 0 r0 < 2 ^ 24 := by omega
  obtain ⟨e2, w2⟩ := nospamStep_eq (nospamStep 0 r0) r1 h1 a1
  have a2 : nospamStep (nospamStep 0 r0) r1 < 2 ^ 24 := by omega
  obtain ⟨e3, w3⟩ := nospamStep_eq (nospamStep (nospamStep 0 r0) r1) r2 h2 a2
  have a3 : nospamStep (nospamStep (nospamStep 0 r0) r1) r2 < 2 ^ 24 := by omega
  obtain ⟨e4, w4⟩ := nospamStep_eq (nospamStep (nospamStep (nospamStep 0 r0) r1) r2) r3 h3 a3
  have hfold : randomNospam r0 r1 r2 r3
      = nospamStep (nospamStep (nospamStep (nospamStep 0 r0) r1) r2) r3 := rfl
  refine ⟨?_, ?_, ?_, ?_, ?_, ?_, ?_, ?_⟩
  · simp [generateRandomNospam, coreSetNospam, setNospamText, State.log, callsSince]
  · simp [generateRandomNospam, coreSetNospam, setNospamText, State.log]
  · rw [hfold]
    omega
  · intro r hr
    have hcases : r = r0 ∨ r = r1 ∨ r = r2 ∨ r = r3 := by simpa using hr
    have hnn : 0 ≤ r := by
      rcases hcases with h | h | h | h <;> rw [h] <;> assumption
    rw [Int.tmod_eq_emod hnn (by norm_num)]
    have := Int.emod_nonneg r (show (256 : Int) ≠ 0 by norm_num)
    have := Int.emod_lt_of_pos r (show (0 : Int) < 256 by norm_num)
    omega
  · omega
  · omega
  · omega
  · omega

/-- Witness of C8: the outputs 511, 2, 3 and `2^31 - 1` give the token
`0xFF0203FF`. -/
theorem generateRandomNospam_big_endian_witness :
    ((randomNospam 511 2 3 2147483647 : Nat) : Int)
        = (511 % 256) * 2 ^ 24 + (2 % 256) * 2 ^ 16 + (3 % 256) * 2 ^ 8 + 2147483647 % 256 ∧
      randomNospam 511 2 3 2147483647 = 4278322175 :=
  ⟨(generateRandomNospam_big_endian (fun _ => []) 511 2 3 2147483647
      (sampleState none none false false false false [])
      (by decide) (by decide) (by decide) (by decide)).2.2.1, by decide⟩

end PrivacyForm
